import Mathlib

/-!
# virtcontainers: the proxy kind registry (`proxy.go`)

A shallow embedding of `proxy.go`: the string type `ProxyType`, its two
constants, the methods `Set` and `String` on a `*ProxyType` receiver and the
factory `newProxy`.

Modelling conventions.

* A Go `string` is modelled by a Lean `String`; the `switch` statements of the
  source compare strings for equality, which is decidable equality here.
* The pointer receiver `pType *ProxyType` is modelled by explicit state
  passing: a method takes the value the receiver points to and returns the
  value it points to afterwards, next to the method's own result.
* A Go `error` is modelled by `Option String`: `none` is the `nil` error and
  `some msg` is an error whose `Error()` text is `msg`.
-/

namespace Virtcontainers

/-! ## `fmt.Errorf` with the `%s` verb -/

/-- Expansion of a format over its operands, on character lists: the verb
`%s` is replaced by the next operand, written verbatim (an operand is never
scanned for verbs again); `%!s(MISSING)` stands for an operand that is not
there, as in Go's `fmt`; every other character is copied. -/
def sprintfChars : List Char → List String → List Char
  | '%' :: 's' :: rest, a :: args => a.data ++ sprintfChars rest args
  | '%' :: 's' :: rest, [] => "%!s(MISSING)".data ++ sprintfChars rest []
  | c :: rest, args => c :: sprintfChars rest args
  | [], _ => []

/-- Model of `fmt.Sprintf(format, args...)` for string operands and the `%s` verb. -/
def Sprintf (format : String) (args : List String) : String :=
  ⟨sprintfChars format.data args⟩

/-- Model of `fmt.Errorf(format, args...)`: a non-nil error whose text is the
formatted string. -/
def Errorf (format : String) (args : List String) : Option String :=
  some (Sprintf format args)

/-! ## `ProxyType` -/

/-- ProxyType describes a proxy type: `type ProxyType string`. -/
abbrev ProxyType := String

/-- CCProxyType is the ccProxy. -/
def CCProxyType : ProxyType := "ccProxy"

/-- NoopProxyType is the noopProxy. -/
def NoopProxyType : ProxyType := "noopProxy"

/-- Set sets a proxy type based on the input string. The first component is the
value of `*pType` when the method returns, the second is the returned error. -/
def ProxyType.Set (pType : ProxyType) (value : String) : ProxyType × Option String :=
  if value = "noopProxy" then
    (NoopProxyType, none)
  else if value = "ccProxy" then
    (CCProxyType, none)
  else
    (pType, Errorf "Unknown proxy type %s" [value])

/-- String converts a proxy type to a string. -/
def ProxyType.String (pType : ProxyType) : String :=
  if pType = NoopProxyType then
    NoopProxyType
  else if pType = CCProxyType then
    CCProxyType
  else
    ""

/-! ## The factory `newProxy` -/

/-- Modelled from the spec: the two concrete strategies behind the `proxy`
interface, the struct types `noopProxy` and `ccProxy`, are declared outside
`proxy.go`; the spec names them the inert (no-op) strategy and the external
strategy. A value of this type is the dynamic type of a non-nil `proxy`
interface value built by the composite literals `&noopProxy{}` and
`&ccProxy{}`, whose fields all hold their zero values. -/
inductive proxy where
  | noopProxy : proxy
  | ccProxy : proxy
  deriving DecidableEq, Repr

/-- The function newProxy returns a proxy from a proxy type. The first component is the
returned interface value (`none` would be the `nil` interface, `some p` a
pointer to a freshly built `p`), the second is the returned error. -/
def newProxy (pType : ProxyType) : Option proxy × Option String :=
  if pType = NoopProxyType then
    (some proxy.noopProxy, none)
  else if pType = CCProxyType then
    (some proxy.ccProxy, none)
  else
    (some proxy.noopProxy, none)

/-! ## `IOStream` and the `proxy` interface

`proxy.go` declares the interface `proxy` with the methods `register`,
`unregister`, `connect`, `disconnect` and `sendCmd`; the method bodies of the
two strategies and the type `Pod` live outside this file. They are modelled
below from the written specification of the contract: a table of sessions per
proxy instance, keyed by the pod identifier. -/

/-- Conversion to `uint64`, the type of the stream identifiers. -/
def uint64 (n : Nat) : Nat := n % 2 ^ 64

/-- IOStream holds three file descriptors returned by the proxy, and the three
stream identifiers. A `*os.File` is `none` for `nil` and `some fd` for an open
descriptor; the identifiers are `uint64` values. -/
structure IOStream where
  Stdin : Option Nat
  Stdout : Option Nat
  Stderr : Option Nat
  StdinID : Nat
  StdoutID : Nat
  StderrID : Nat
  deriving DecidableEq, Repr

/-- Modelled from the spec: the type `Pod`, declared outside `proxy.go`. The
spec calls it an opaque descriptor from which the proxy needs the pod
identifier (a session "associates a pod identifier with" its state) and the
containers needing I/O handles at `register` time. -/
structure Pod where
  id : String
  containers : List String
  deriving DecidableEq, Repr

/-- Modelled from the spec: the failure kinds of the five `proxy` methods, whose
bodies are outside `proxy.go` (spec section 7): `SessionAlreadyExists`,
`SessionNotFound`, `NotConnected` and `TransportError`. -/
inductive ProxyError where
  | SessionAlreadyExists : ProxyError
  | SessionNotFound : ProxyError
  | NotConnected : ProxyError
  | TransportError : ProxyError
  deriving DecidableEq, Repr

/-- Modelled from the spec: the out-of-process mediator the external strategy
talks to, which the spec leaves outside its scope. It is a parameter of every
call that may touch it. `handshake pod` is the outcome of the handshake of
`register` and `connect` ("yields the session and its stream-ID assignments
from the remote side"), `none` when the strategy "cannot reach/start the
guest-side counterpart"; `roundTrip cmd` is the agent's reply to a forwarded
command, `none` on a transport failure. -/
structure Transport where
  handshake : Pod → Option (List IOStream)
  roundTrip : String → Option String

/-- Modelled from the spec: the per-pod session kept by a strategy (its type is
not in `proxy.go`). It "associates a pod identifier with: the set of
currently-registered stream-ID triples, the transport handle/connection to the
agent (if any)"; `attached` tells whether the transport handle is held. -/
structure Session where
  pod : String
  streams : List IOStream
  attached : Bool
  deriving DecidableEq, Repr

/-- Modelled from the spec: the state behind a `proxy` value, which the struct
declarations outside `proxy.go` would hold: the strategy, the live sessions
("at most one live session per pod per proxy instance") and the local counter
from which the no-op strategy draws stream identifiers. -/
structure ProxyState where
  impl : proxy
  sessions : List Session
  counter : Nat
  deriving DecidableEq, Repr

/-- The state of a proxy as `newProxy` builds it: the composite literal has
zero-valued fields, so there is no session and the counter is 0. -/
def ProxyState.fresh (impl : proxy) : ProxyState :=
  { impl := impl, sessions := [], counter := 0 }

/-- Whether the pod identifier `id` has a live session on this proxy instance. -/
def ProxyState.hasSession (st : ProxyState) (id : String) : Bool :=
  st.sessions.any (fun s => s.pod == id)

/-- Modelled from the spec: the streams the no-op strategy synthesizes at
`register` (its body is outside `proxy.go`), one per container, "using
process-local, ordinary (non-multiplexed) stream handles and locally-unique
counters for IDs": the handles are the standard descriptors 0, 1 and 2 and the
identifiers are the next three counter values. -/
def noopStreams (counter : Nat) : List String → List IOStream
  | [] => []
  | _ :: rest =>
    { Stdin := some 0, Stdout := some 1, Stderr := some 2,
      StdinID := uint64 counter, StdoutID := uint64 (counter + 1),
      StderrID := uint64 (counter + 2) } :: noopStreams (counter + 3) rest

/-- Modelled from the spec: the method `register` of both strategies (bodies
outside `proxy.go`). It "establishes a new session for pod's VM if none
exists" and returns one `IOStream` per container; it "fails with
SessionAlreadyExists if pod already has a live session on this proxy instance,
or with a transport-level error if the strategy cannot reach/start the
guest-side counterpart". The no-op strategy has no transport and "always
succeeds unless called twice for the same pod"; for the external strategy the
remote side assigns the streams. A failed call leaves the state as it was. -/
def register (env : Transport) (st : ProxyState) (pod : Pod) :
    Except ProxyError (List IOStream) × ProxyState :=
  if st.hasSession pod.id then
    (.error .SessionAlreadyExists, st)
  else
    match st.impl with
    | .noopProxy =>
      let streams := noopStreams st.counter pod.containers
      (.ok streams,
        { st with
          sessions := { pod := pod.id, streams := streams, attached := true } :: st.sessions,
          counter := uint64 (st.counter + 3 * pod.containers.length) })
    | .ccProxy =>
      match env.handshake pod with
      | none => (.error .TransportError, st)
      | some streams =>
        (.ok streams,
          { st with
            sessions := { pod := pod.id, streams := streams, attached := true } :: st.sessions })

/-- Modelled from the spec: the method `unregister` of both strategies (bodies
outside `proxy.go`). It "tears down the session for pod" and "forgets the
session"; "calling it with no live session fails with SessionNotFound". The
result is the returned error, `none` for `nil`. The spec's sentence that the
no-op strategy's "disconnect/unregister always succeed" is read as: that
strategy has no transport that could fail, since the same spec lets a second
`unregister` on a no-op proxy fail with `SessionNotFound`. -/
def unregister (st : ProxyState) (pod : Pod) : Option ProxyError × ProxyState :=
  if st.hasSession pod.id then
    (none, { st with sessions := st.sessions.filter (fun s => s.pod != pod.id) })
  else
    (some .SessionNotFound, st)

/-- The zero value `IOStream{}` of the struct. -/
def IOStream.zero : IOStream :=
  { Stdin := none, Stdout := none, Stderr := none, StdinID := 0, StdoutID := 0, StderrID := 0 }

/-- Marks the transport handle of the session of `id` as held. -/
def attach (id : String) (sessions : List Session) : List Session :=
  sessions.map (fun s => if s.pod == id then { s with attached := true } else s)

/-- Modelled from the spec: the method `connect` of both strategies (bodies
outside `proxy.go`). It "attaches to an already-registered session" and returns
"a single IOStream representing the pod's primary stream"; it "fails with
SessionNotFound if no session is registered for pod" and "does not allocate new
stream IDs; it resolves existing ones": the first stream of the session, which
the external strategy obtains through the handshake. Sessions are "looked up
(not created) by connect". -/
def connect (env : Transport) (st : ProxyState) (pod : Pod) :
    Except ProxyError IOStream × ProxyState :=
  match st.sessions.find? (fun s => s.pod == pod.id) with
  | none => (.error .SessionNotFound, st)
  | some s =>
    match st.impl with
    | .noopProxy =>
      (.ok (s.streams.headD IOStream.zero), { st with sessions := attach pod.id st.sessions })
    | .ccProxy =>
      match env.handshake pod with
      | none => (.error .TransportError, st)
      | some streams =>
        (.ok (streams.headD IOStream.zero), { st with sessions := attach pod.id st.sessions })

/-- Modelled from the spec: the method `disconnect` of both strategies (bodies
outside `proxy.go`). It "releases this strategy instance's local resources
(e.g., closes its side of the transport) without necessarily destroying the
remote/guest-side session" and is "safe to call even if nothing was ever
registered": every session stays, with its transport handle released. -/
def disconnect (st : ProxyState) : Option ProxyError × ProxyState :=
  (none, { st with sessions := st.sessions.map (fun s => { s with attached := false }) })

/-- Modelled from the spec: the method `sendCmd` of both strategies (bodies
outside `proxy.go`), on an opaque payload. It "fails with NotConnected if no
session/transport is currently active"; otherwise the no-op strategy "returns
an empty/echo reply without contacting anything" (the empty payload here) and
the external strategy returns the agent's reply or a transport error. -/
def sendCmd (env : Transport) (st : ProxyState) (cmd : String) :
    Except ProxyError String × ProxyState :=
  if st.sessions.any (fun s => s.attached) then
    match st.impl with
    | .noopProxy => (.ok "", st)
    | .ccProxy =>
      match env.roundTrip cmd with
      | none => (.error .TransportError, st)
      | some reply => (.ok reply, st)
  else
    (.error .NotConnected, st)

/-- One call of a method of the `proxy` interface, with the behaviour of the
mediator at the time of the call where the method may reach it. -/
inductive Call where
  | register : Transport → Pod → Call
  | unregister : Pod → Call
  | connect : Transport → Pod → Call
  | disconnect : Call
  | sendCmd : Transport → String → Call

/-- The state of the proxy after one call. -/
def Call.step (st : ProxyState) : Call → ProxyState
  | .register env pod => (Virtcontainers.register env st pod).2
  | .unregister pod => (Virtcontainers.unregister st pod).2
  | .connect env pod => (Virtcontainers.connect env st pod).2
  | .disconnect => (Virtcontainers.disconnect st).2
  | .sendCmd env cmd => (Virtcontainers.sendCmd env st cmd).2

/-- The state of the proxy after a sequence of calls, oldest first. -/
def runCalls (st : ProxyState) (calls : List Call) : ProxyState :=
  calls.foldl Call.step st

/-- Whether the call is a `register` of the pod identifier `id`. -/
def Call.registers (id : String) : Call → Bool
  | .register _ pod => pod.id == id
  | _ => false

/-- A mediator that can be reached: the remote side assigns the identifiers
`3i`, `3i+1`, `3i+2` to the `i`-th container and the agent echoes a command. -/
def Transport.reachable : Transport :=
  { handshake := fun pod => some (noopStreams 0 pod.containers),
    roundTrip := fun cmd => some cmd }

/-- A mediator that cannot be reached: every handshake and every command fails. -/
def Transport.unreachable : Transport :=
  { handshake := fun _ => none,
    roundTrip := fun _ => none }

/-- The stream identifiers of a list of streams, three per stream, in order. -/
def streamIDs : List IOStream → List Nat
  | [] => []
  | s :: rest => s.StdinID :: s.StdoutID :: s.StderrID :: streamIDs rest

/-- Whether the call is a `register` or a `connect`, the two methods after
which a session can have its transport attached. -/
def Call.opens : Call → Bool
  | .register _ _ => true
  | .connect _ _ => true
  | _ => false

/-- A `ProxyType` value is valid when it is one of the two declared constants. -/
def ProxyType.valid (pType : ProxyType) : Prop :=
  pType = NoopProxyType ∨ pType = CCProxyType

instance (pType : ProxyType) : Decidable (ProxyType.valid pType) :=
  inferInstanceAs (Decidable (pType = NoopProxyType ∨ pType = CCProxyType))

/-- The receiver after a sequence of `Set` calls, oldest first, whatever each
call returned. -/
def setAll (pType : ProxyType) (values : List String) : ProxyType :=
  values.foldl (fun t value => (ProxyType.Set t value).1) pType

/-- A mediator that can be reached and assigns the zero stream to every
container, so that all identifiers it hands out are 0. -/
def Transport.careless : Transport :=
  { handshake := fun pod => some (pod.containers.map (fun _ => IOStream.zero)),
    roundTrip := fun cmd => some cmd }

/-! ## Lemmas on formatting -/

/-- The rejection format of `Set`, expanded: the prefix followed by the operand. -/
theorem Sprintf_unknown (value : String) :
    Sprintf "Unknown proxy type %s" [value] = "Unknown proxy type " ++ value := by
  apply String.ext
  simp [Sprintf, sprintfChars]

/-- On an input that is neither literal, `Set` takes the `default` branch. -/
theorem Set_default (pType : ProxyType) (value : String)
    (h1 : value ≠ "noopProxy") (h2 : value ≠ "ccProxy") :
    ProxyType.Set pType value = (pType, some ("Unknown proxy type " ++ value)) := by
  simp [ProxyType.Set, h1, h2, Errorf, Sprintf_unknown]

/-! ## The parser `Set` and the formatter `String` -/

/-- C1: round trip parse-then-format. For each recognized kind string `s`
(`"noopProxy"` or `"ccProxy"`) and every prior value `pType` of the receiver,
`Set(s)` returns the nil error and `String()` on the receiver afterwards
returns exactly `s`. -/
theorem Set_then_String_roundtrip (pType : ProxyType) (s : String)
    (hs : s = "noopProxy" ∨ s = "ccProxy") :
    (ProxyType.Set pType s).2 = none ∧
      ProxyType.String (ProxyType.Set pType s).1 = s := by
  rcases hs with rfl | rfl
  · exact ⟨rfl, show ProxyType.String NoopProxyType = "noopProxy" by decide⟩
  · exact ⟨rfl, show ProxyType.String CCProxyType = "ccProxy" by decide⟩

/-- Witness of C1 at the receiver `"bogusProxy"` and the input `"ccProxy"`. -/
theorem Set_then_String_roundtrip_witness :
    ("ccProxy" = "noopProxy" ∨ "ccProxy" = "ccProxy") ∧
      (ProxyType.Set "bogusProxy" "ccProxy").2 = none ∧
      ProxyType.String (ProxyType.Set "bogusProxy" "ccProxy").1 = "ccProxy" :=
  ⟨by decide, Set_then_String_roundtrip "bogusProxy" "ccProxy" (by decide)⟩

/-- C2: `Set` accepts exactly the recognized literal names. For every receiver
and every string `value`, the returned error is nil if and only if `value` is
`"noopProxy"` or `"ccProxy"`; every other string yields an error, among them
the empty string, a name in another letter case and a name with a blank
around it. -/
theorem Set_nil_error_iff (pType : ProxyType) (value : String) :
    ((ProxyType.Set pType value).2 = none ↔ (value = "noopProxy" ∨ value = "ccProxy")) ∧
      ((ProxyType.Set pType value).2 = none ∨ ∃ msg, (ProxyType.Set pType value).2 = some msg) ∧
      (ProxyType.Set pType "").2 ≠ none ∧
      (ProxyType.Set pType "NoopProxy").2 ≠ none ∧
      (ProxyType.Set pType "CCPROXY").2 ≠ none ∧
      (ProxyType.Set pType " ccProxy").2 ≠ none ∧
      (ProxyType.Set pType "noopProxy ").2 ≠ none := by
  refine ⟨?_, ?_, ?_, ?_, ?_, ?_, ?_⟩
  · by_cases h1 : value = "noopProxy"
    · simp [ProxyType.Set, h1]
    · by_cases h2 : value = "ccProxy"
      · simp [ProxyType.Set, h2]
      · simp [Set_default pType value h1 h2, h1, h2]
  · cases h : (ProxyType.Set pType value).2 with
    | none => exact Or.inl rfl
    | some msg => exact Or.inr ⟨msg, rfl⟩
  all_goals simp [ProxyType.Set, Errorf]

/-- C3: on success `Set` returns the matching kind. For every prior value of
the receiver, `Set("noopProxy")` leaves it equal to `NoopProxyType` and
`Set("ccProxy")` leaves it equal to `CCProxyType`; whenever `Set` succeeds the
stored value is the same for any two prior values of the receiver. -/
theorem Set_stores_matching_kind (pType pType2 : ProxyType) (value : String) :
    (ProxyType.Set pType "noopProxy").1 = NoopProxyType ∧
      (ProxyType.Set pType "ccProxy").1 = CCProxyType ∧
      ((ProxyType.Set pType value).2 ≠ none ∨
        (ProxyType.Set pType value).1 = (ProxyType.Set pType2 value).1) := by
  refine ⟨rfl, rfl, ?_⟩
  by_cases h1 : value = "noopProxy"
  · right; simp [ProxyType.Set, h1]
  · by_cases h2 : value = "ccProxy"
    · right; simp [ProxyType.Set, h2]
    · left; simp [Set_default pType value h1 h2]

/-- C4: the rejection error names the offending value. For every string
`value` that is neither `"noopProxy"` nor `"ccProxy"`, the error of
`Set(value)` has the text `"Unknown proxy type "` followed by `value`
verbatim, so `value` occurs in the text. -/
theorem Set_error_names_value (pType : ProxyType) (value : String)
    (h1 : value ≠ "noopProxy") (h2 : value ≠ "ccProxy") :
    (ProxyType.Set pType value).2 = some ("Unknown proxy type " ++ value) ∧
      ∃ msg : String, (ProxyType.Set pType value).2 = some msg ∧
        value.data <:+: msg.data := by
  rw [Set_default pType value h1 h2]
  refine ⟨rfl, _, rfl, ?_⟩
  rw [String.data_append]
  exact (List.suffix_append _ _).isInfix

/-- Witness of C4 at the input `"bogusProxy"`: the text of the error is
`"Unknown proxy type bogusProxy"`. -/
theorem Set_error_names_value_witness :
    "bogusProxy" ≠ "noopProxy" ∧ "bogusProxy" ≠ "ccProxy" ∧
      (ProxyType.Set "ccProxy" "bogusProxy").2 = some "Unknown proxy type bogusProxy" ∧
      ∃ msg : String, (ProxyType.Set "ccProxy" "bogusProxy").2 = some msg ∧
        "bogusProxy".data <:+: msg.data :=
  ⟨by decide, by decide,
    (Set_error_names_value "ccProxy" "bogusProxy" (by decide) (by decide)).1.trans (by decide),
    (Set_error_names_value "ccProxy" "bogusProxy" (by decide) (by decide)).2⟩

/-- C5: parsing an unrecognized string fails and does not default. For every
string `value` that is neither `"noopProxy"` nor `"ccProxy"` and every prior
value `pType` of the receiver, `Set(value)` returns an error and the receiver
still equals `pType` afterwards. -/
theorem Set_error_leaves_receiver (pType : ProxyType) (value : String)
    (h1 : value ≠ "noopProxy") (h2 : value ≠ "ccProxy") :
    (ProxyType.Set pType value).2 ≠ none ∧ (ProxyType.Set pType value).1 = pType := by
  rw [Set_default pType value h1 h2]
  exact ⟨by simp, rfl⟩

/-- Witness of C5 at the receiver `"ccProxy"` and the input `""`. -/
theorem Set_error_leaves_receiver_witness :
    "" ≠ "noopProxy" ∧ "" ≠ "ccProxy" ∧
      (ProxyType.Set "ccProxy" "").2 ≠ none ∧ (ProxyType.Set "ccProxy" "").1 = "ccProxy" :=
  ⟨by decide, by decide, Set_error_leaves_receiver "ccProxy" "" (by decide) (by decide)⟩

/-- C6: `String` is total with exactly three results. For every `ProxyType`
value exactly one of these holds: it is `NoopProxyType` and the result is
`"noopProxy"`; it is `CCProxyType` and the result is `"ccProxy"`; it is
neither and the result is the empty string, which is then not the underlying
string unless that is empty itself. So for `ProxyType("bogusProxy")` and
`ProxyType("")` the result is `""`. -/
theorem String_three_results (pType : ProxyType) :
    ((pType = NoopProxyType ∧ ProxyType.String pType = "noopProxy") ∨
      (pType = CCProxyType ∧ ProxyType.String pType = "ccProxy") ∨
      (pType ≠ NoopProxyType ∧ pType ≠ CCProxyType ∧ ProxyType.String pType = "" ∧
        (pType = "" ∨ ProxyType.String pType ≠ pType))) ∧
      ProxyType.String "bogusProxy" = "" ∧ ProxyType.String "" = "" := by
  refine ⟨?_, by decide, by decide⟩
  by_cases h1 : pType = NoopProxyType
  · left; subst h1; exact ⟨rfl, by decide⟩
  · by_cases h2 : pType = CCProxyType
    · right; left; subst h2; exact ⟨rfl, by decide⟩
    · right; right
      have h3 : ProxyType.String pType = "" := by simp [ProxyType.String, h1, h2]
      refine ⟨h1, h2, h3, ?_⟩
      by_cases h4 : pType = ""
      · exact Or.inl h4
      · right; rw [h3]; exact fun h => h4 h.symm

/-! ## The factory -/

/-- C7: `newProxy` never fails. For every `ProxyType` value, recognized or not,
it returns a non-nil proxy together with the nil error. -/
theorem newProxy_total (pType : ProxyType) :
    (newProxy pType).1 ≠ none ∧ (newProxy pType).2 = none := by
  unfold newProxy
  split_ifs <;> simp

/-- C8: the mapping from kind to strategy. `newProxy(NoopProxyType)` returns a
`noopProxy`, `newProxy(CCProxyType)` returns a `ccProxy`, every other value
gives a `noopProxy`; the result is a `ccProxy` if and only if the argument is
`CCProxyType`. -/
theorem newProxy_mapping (pType : ProxyType) :
    (newProxy NoopProxyType).1 = some proxy.noopProxy ∧
      (newProxy CCProxyType).1 = some proxy.ccProxy ∧
      (pType = NoopProxyType ∨ pType = CCProxyType ∨
        (newProxy pType).1 = some proxy.noopProxy) ∧
      ((newProxy pType).1 = some proxy.ccProxy ↔ pType = CCProxyType) := by
  refine ⟨by decide, by decide, ?_, ?_⟩
  · by_cases h1 : pType = NoopProxyType
    · exact Or.inl h1
    · by_cases h2 : pType = CCProxyType
      · exact Or.inr (Or.inl h2)
      · right; right; simp [newProxy, h1, h2]
  · by_cases h1 : pType = NoopProxyType
    · subst h1; decide
    · by_cases h2 : pType = CCProxyType
      · subst h2; decide
      · simp [newProxy, h1, h2]

/-- C9: parse-then-create. For all prior values of the two receivers,
`Set("noopProxy")` then `newProxy` succeeds with the `noopProxy` strategy,
`Set("ccProxy")` then `newProxy` succeeds with the `ccProxy` strategy, and the
two proxies returned are distinct. -/
theorem Set_then_newProxy (pType pType2 : ProxyType) :
    (ProxyType.Set pType "noopProxy").2 = none ∧
      newProxy (ProxyType.Set pType "noopProxy").1 = (some proxy.noopProxy, none) ∧
      (ProxyType.Set pType2 "ccProxy").2 = none ∧
      newProxy (ProxyType.Set pType2 "ccProxy").1 = (some proxy.ccProxy, none) ∧
      (newProxy (ProxyType.Set pType "noopProxy").1).1 ≠
        (newProxy (ProxyType.Set pType2 "ccProxy").1).1 := by
  have ha : (ProxyType.Set pType "noopProxy").1 = NoopProxyType := rfl
  have hb : (ProxyType.Set pType2 "ccProxy").1 = CCProxyType := rfl
  rw [ha, hb]
  exact ⟨rfl, by decide, rfl, by decide, by decide⟩

/-! ## Sessions: `register` and `unregister` -/

/-- A `register` on a pod that has a live session is refused and changes nothing. -/
theorem register_of_hasSession (env : Transport) (st : ProxyState) (pod : Pod)
    (h : st.hasSession pod.id = true) :
    register env st pod = (.error .SessionAlreadyExists, st) := by
  simp [register, h]

/-- The `register` of the no-op strategy on a pod without a live session. -/
theorem register_noop (env : Transport) (st : ProxyState) (pod : Pod)
    (hs : st.hasSession pod.id = false) (hi : st.impl = proxy.noopProxy) :
    register env st pod =
      (.ok (noopStreams st.counter pod.containers),
        { st with
          sessions := { pod := pod.id, streams := noopStreams st.counter pod.containers,
                        attached := true } :: st.sessions,
          counter := uint64 (st.counter + 3 * pod.containers.length) }) := by
  simp only [register, hs, hi, Bool.false_eq_true, if_false]

/-- The `register` of the external strategy on a pod without a live session,
when the handshake fails. -/
theorem register_cc_none (env : Transport) (st : ProxyState) (pod : Pod)
    (hs : st.hasSession pod.id = false) (hi : st.impl = proxy.ccProxy)
    (hh : env.handshake pod = none) :
    register env st pod = (.error .TransportError, st) := by
  simp only [register, hs, hi, hh, Bool.false_eq_true, if_false]

/-- The `register` of the external strategy on a pod without a live session,
when the handshake yields the streams. -/
theorem register_cc_some (env : Transport) (st : ProxyState) (pod : Pod)
    (streams : List IOStream)
    (hs : st.hasSession pod.id = false) (hi : st.impl = proxy.ccProxy)
    (hh : env.handshake pod = some streams) :
    register env st pod =
      (.ok streams,
        { st with
          sessions := { pod := pod.id, streams := streams, attached := true } :: st.sessions }) := by
  simp only [register, hs, hi, hh, Bool.false_eq_true, if_false]

/-- After a `register` that the transport did not stop, the pod has a live session. -/
theorem hasSession_after_register (env : Transport) (st : ProxyState) (pod : Pod)
    (h : (register env st pod).1 ≠ .error .TransportError) :
    (register env st pod).2.hasSession pod.id = true := by
  cases hs : st.hasSession pod.id with
  | true => rw [register_of_hasSession env st pod hs]; exact hs
  | false =>
    cases hi : st.impl with
    | noopProxy =>
      rw [register_noop env st pod hs hi]
      simp [ProxyState.hasSession]
    | ccProxy =>
      cases hh : env.handshake pod with
      | none => exact absurd (by rw [register_cc_none env st pod hs hi hh]) h
      | some streams =>
        rw [register_cc_some env st pod streams hs hi hh]
        simp [ProxyState.hasSession]

/-- Marking a transport handle as held keeps the pods of the sessions. -/
theorem any_pod_attach (id id2 : String) (sessions : List Session) :
    (attach id2 sessions).any (fun s => s.pod == id) = sessions.any (fun s => s.pod == id) := by
  induction sessions with
  | nil => rfl
  | cons s rest ih =>
    simp only [attach, List.map_cons, List.any_cons] at ih ⊢
    rw [ih]
    by_cases h : s.pod == id2 <;> simp [h]

/-- A session list extended by a session of another pod has the same sessions of `id`. -/
theorem any_pod_cons (id : String) (s : Session) (sessions : List Session)
    (hne : ¬ s.pod = id) :
    (s :: sessions).any (fun t => t.pod == id) = sessions.any (fun t => t.pod == id) := by
  simp [hne]

/-- A call that is not a `register` of the pod `id` creates no session for it. -/
theorem hasSession_of_step (id : String) (st : ProxyState) (c : Call)
    (hc : c.registers id = false) (h : (c.step st).hasSession id = true) :
    st.hasSession id = true := by
  cases c with
  | register env pod =>
    have hne : ¬ pod.id = id := by simpa [Call.registers] using hc
    simp only [Call.step] at h
    cases hs : st.hasSession pod.id with
    | true => rwa [register_of_hasSession env st pod hs] at h
    | false =>
      cases hi : st.impl with
      | noopProxy =>
        rw [register_noop env st pod hs hi] at h
        simp only [ProxyState.hasSession] at h ⊢
        rwa [any_pod_cons id _ _ hne] at h
      | ccProxy =>
        cases hh : env.handshake pod with
        | none => rwa [register_cc_none env st pod hs hi hh] at h
        | some streams =>
          rw [register_cc_some env st pod streams hs hi hh] at h
          simp only [ProxyState.hasSession] at h ⊢
          rwa [any_pod_cons id _ _ hne] at h
  | unregister pod =>
    simp only [Call.step, unregister] at h
    cases hs : st.hasSession pod.id with
    | true =>
      simp only [hs, if_true] at h
      simp only [ProxyState.hasSession, List.any_eq_true, List.mem_filter] at h ⊢
      obtain ⟨s, ⟨hmem, _⟩, hid⟩ := h
      exact ⟨s, hmem, hid⟩
    | false =>
      simp only [hs, Bool.false_eq_true, if_false] at h
      exact h
  | connect env pod =>
    simp only [Call.step, connect] at h
    cases hf : st.sessions.find? (fun s => s.pod == pod.id) with
    | none => simpa only [hf] using h
    | some s =>
      cases hi : st.impl with
      | noopProxy =>
        simp only [hf, hi, ProxyState.hasSession, any_pod_attach] at h
        exact h
      | ccProxy =>
        cases hh : env.handshake pod with
        | none => simpa only [hf, hi, hh] using h
        | some streams =>
          simp only [hf, hi, hh, ProxyState.hasSession, any_pod_attach] at h
          exact h
  | disconnect =>
    simpa [Call.step, disconnect, ProxyState.hasSession] using h
  | sendCmd env cmd =>
    have hst : (Call.sendCmd env cmd).step st = st := by
      simp only [Call.step, sendCmd]
      split
      · cases st.impl with
        | noopProxy => rfl
        | ccProxy => cases env.roundTrip cmd <;> rfl
      · rfl
    rwa [hst] at h

/-- Sessions come from `register` alone: a pod with a live session after a
sequence of calls had one before it, or the sequence has a `register` of it. -/
theorem hasSession_of_runCalls (id : String) (calls : List Call) (st : ProxyState)
    (hc : ∀ c ∈ calls, c.registers id = false)
    (h : (runCalls st calls).hasSession id = true) :
    st.hasSession id = true := by
  induction calls generalizing st with
  | nil => exact h
  | cons c rest ih =>
    have hrest : ∀ c2 ∈ rest, c2.registers id = false :=
      fun c2 hc2 => hc c2 (List.mem_cons_of_mem c hc2)
    have hstep := ih (c.step st) hrest (by simpa [runCalls] using h)
    exact hasSession_of_step id st c (hc c (List.mem_cons_self c rest)) hstep

/-- No call changes the strategy behind the proxy. -/
theorem impl_step (st : ProxyState) (c : Call) : (c.step st).impl = st.impl := by
  cases c with
  | register env pod =>
    simp only [Call.step]
    cases hs : st.hasSession pod.id with
    | true => rw [register_of_hasSession env st pod hs]
    | false =>
      cases hi : st.impl with
      | noopProxy => rw [register_noop env st pod hs hi]; exact hi
      | ccProxy =>
        cases hh : env.handshake pod with
        | none => rw [register_cc_none env st pod hs hi hh]; exact hi
        | some streams => rw [register_cc_some env st pod streams hs hi hh]; exact hi
  | unregister pod =>
    simp only [Call.step, unregister]
    split <;> rfl
  | connect env pod =>
    simp only [Call.step, connect]
    cases st.sessions.find? (fun s => s.pod == pod.id) with
    | none => rfl
    | some s =>
      cases hi : st.impl with
      | noopProxy => rfl
      | ccProxy => cases env.handshake pod <;> simp [hi]
  | disconnect => rfl
  | sendCmd env cmd =>
    simp only [Call.step, sendCmd]
    split
    · cases hi : st.impl with
      | noopProxy => simp [hi]
      | ccProxy => cases env.roundTrip cmd <;> simp [hi]
    · rfl

/-- The strategy after a sequence of calls is the one the proxy started with. -/
theorem impl_runCalls (calls : List Call) (st : ProxyState) :
    (runCalls st calls).impl = st.impl := by
  induction calls generalizing st with
  | nil => rfl
  | cons c rest ih =>
    have h := ih (c.step st)
    rw [impl_step] at h
    simpa [runCalls] using h

/-- The no-op strategy has no transport: its `register` never fails on one. -/
theorem register_noop_ne_transport (env : Transport) (st : ProxyState) (pod : Pod)
    (hi : st.impl = proxy.noopProxy) :
    (register env st pod).1 ≠ .error .TransportError := by
  cases hs : st.hasSession pod.id with
  | true =>
    rw [register_of_hasSession env st pod hs]
    intro h; cases h
  | false =>
    rw [register_noop env st pod hs hi]
    intro h; cases h

/-- C10: for any pod and any proxy obtained from `newProxy`, in the state it
has after any sequence of calls: `register(pod)` followed by `register(pod)`
again fails with `SessionAlreadyExists`, the first `register` being one that
no transport-level error stopped (none can on the no-op strategy); and
`unregister(pod)` after any sequence of calls with no `register` of that pod
fails with `SessionNotFound`. -/
theorem register_twice_unregister_unregistered (pType : ProxyType) (impl : proxy)
    (himpl : (newProxy pType).1 = some impl)
    (before : List Call) (env1 env2 : Transport) (pod : Pod)
    (hfirst : impl = proxy.noopProxy ∨
      (register env1 (runCalls (ProxyState.fresh impl) before) pod).1 ≠
        .error .TransportError)
    (calls : List Call) (hcalls : ∀ c ∈ calls, c.registers pod.id = false) :
    (register env2 (register env1 (runCalls (ProxyState.fresh impl) before) pod).2 pod).1 =
        .error .SessionAlreadyExists ∧
      (unregister (runCalls (ProxyState.fresh impl) calls) pod).1 =
        some .SessionNotFound := by
  have _hnew := himpl
  have hfirst2 : (register env1 (runCalls (ProxyState.fresh impl) before) pod).1 ≠
      .error .TransportError := by
    rcases hfirst with hnoop | h
    · apply register_noop_ne_transport
      rw [impl_runCalls]
      exact hnoop
    · exact h
  constructor
  · rw [register_of_hasSession env2 _ pod (hasSession_after_register env1 _ pod hfirst2)]
  · cases hs : (runCalls (ProxyState.fresh impl) calls).hasSession pod.id with
    | true =>
      have h0 := hasSession_of_runCalls pod.id calls (ProxyState.fresh impl) hcalls hs
      simp [ProxyState.hasSession, ProxyState.fresh] at h0
    | false => simp only [unregister, hs, Bool.false_eq_true, if_false]

/-- Witness of C10 on the external strategy with a reachable mediator: the pod
`pod1` with two containers is registered twice after another pod was, and is
unregistered after calls on another pod only. -/
theorem register_twice_unregister_unregistered_witness :
    (newProxy "ccProxy").1 = some proxy.ccProxy ∧
      (register Transport.reachable
        (runCalls (ProxyState.fresh proxy.ccProxy)
          [Call.register Transport.reachable ⟨"pod2", ["c3"]⟩]) ⟨"pod1", ["c1", "c2"]⟩).1 ≠
        .error .TransportError ∧
      (∀ c ∈ [Call.register Transport.reachable ⟨"pod2", ["c3"]⟩, Call.disconnect,
          Call.sendCmd Transport.reachable "ping", Call.unregister ⟨"pod2", ["c3"]⟩],
        c.registers (Pod.mk "pod1" ["c1", "c2"]).id = false) ∧
      (register Transport.unreachable
        (register Transport.reachable
          (runCalls (ProxyState.fresh proxy.ccProxy)
            [Call.register Transport.reachable ⟨"pod2", ["c3"]⟩]) ⟨"pod1", ["c1", "c2"]⟩).2
        ⟨"pod1", ["c1", "c2"]⟩).1 = .error .SessionAlreadyExists ∧
      (unregister
        (runCalls (ProxyState.fresh proxy.ccProxy)
          [Call.register Transport.reachable ⟨"pod2", ["c3"]⟩, Call.disconnect,
            Call.sendCmd Transport.reachable "ping", Call.unregister ⟨"pod2", ["c3"]⟩])
        ⟨"pod1", ["c1", "c2"]⟩).1 = some .SessionNotFound :=
  ⟨by decide, (by intro h; cases h), by decide,
    register_twice_unregister_unregistered "ccProxy" proxy.ccProxy (by decide)
      [Call.register Transport.reachable ⟨"pod2", ["c3"]⟩]
      Transport.reachable Transport.unreachable ⟨"pod1", ["c1", "c2"]⟩
      (Or.inr (by intro h; cases h))
      [Call.register Transport.reachable ⟨"pod2", ["c3"]⟩, Call.disconnect,
        Call.sendCmd Transport.reachable "ping", Call.unregister ⟨"pod2", ["c3"]⟩]
      (by decide)⟩

/-! ## The parser against the factory -/

/-- C14: the parser and the factory differ on unrecognized identifiers. For
every string `s` other than `"noopProxy"` and `"ccProxy"`, `Set(s)` returns an
error while `newProxy(ProxyType(s))` returns a `noopProxy` with the nil error;
every kind the parser accepts the factory accepts, and the factory accepts a
kind the parser refuses. -/
theorem Set_rejects_newProxy_accepts (pType : ProxyType) (s : String)
    (h1 : s ≠ "noopProxy") (h2 : s ≠ "ccProxy") :
    (ProxyType.Set pType s).2 ≠ none ∧
      newProxy s = (some proxy.noopProxy, none) ∧
      (∀ value : String, (ProxyType.Set pType value).2 = none → (newProxy value).2 = none) ∧
      ∃ value : String, (newProxy value).2 = none ∧ (ProxyType.Set pType value).2 ≠ none := by
  have hs := Set_default pType s h1 h2
  have hn : newProxy s = (some proxy.noopProxy, none) := by
    have h1b : ¬ s = NoopProxyType := h1
    have h2b : ¬ s = CCProxyType := h2
    simp [newProxy, h1b, h2b]
  refine ⟨by rw [hs]; simp, hn, ?_, s, by rw [hn], by rw [hs]; simp⟩
  intro value _
  unfold newProxy
  split_ifs <;> rfl

/-- Witness of C14 at the identifier `"bogusProxy"`. -/
theorem Set_rejects_newProxy_accepts_witness :
    "bogusProxy" ≠ "noopProxy" ∧ "bogusProxy" ≠ "ccProxy" ∧
      (ProxyType.Set "ccProxy" "bogusProxy").2 ≠ none ∧
      newProxy "bogusProxy" = (some proxy.noopProxy, none) :=
  ⟨by decide, by decide,
    (Set_rejects_newProxy_accepts "ccProxy" "bogusProxy" (by decide) (by decide)).1,
    (Set_rejects_newProxy_accepts "ccProxy" "bogusProxy" (by decide) (by decide)).2.1⟩

/-! ## Validity of a `ProxyType` -/

/-- One `Set` keeps a valid receiver valid. -/
theorem valid_Set_of_valid (pType : ProxyType) (value : String)
    (h : ProxyType.valid pType) : ProxyType.valid (ProxyType.Set pType value).1 := by
  by_cases h1 : value = "noopProxy"
  · subst h1; exact Or.inl rfl
  · by_cases h2 : value = "ccProxy"
    · subst h2; exact Or.inr rfl
    · rw [Set_default pType value h1 h2]; exact h

/-- The formatter on a valid value returns the value itself. -/
theorem String_of_valid (pType : ProxyType) (h : ProxyType.valid pType) :
    ProxyType.String pType = pType := by
  rcases h with rfl | rfl
  · decide
  · decide

/-- The formatter on a value that is not valid returns the empty string. -/
theorem String_of_not_valid (pType : ProxyType) (h : ¬ ProxyType.valid pType) :
    ProxyType.String pType = "" := by
  have h1 : ¬ pType = NoopProxyType := fun e => h (Or.inl e)
  have h2 : ¬ pType = CCProxyType := fun e => h (Or.inr e)
  simp [ProxyType.String, h1, h2]

/-- C15: validity (being `NoopProxyType` or `CCProxyType`) is an invariant of
`Set`. For every string `value`: a valid receiver is valid after `Set(value)`,
whether it succeeds or fails; whenever `Set` returns the nil error the receiver
is valid afterwards, whatever it held before; and a receiver that starts valid
is valid after any sequence of `Set` calls. -/
theorem Set_valid_invariant (pType : ProxyType) (value : String) (values : List String) :
    (ProxyType.valid pType → ProxyType.valid (ProxyType.Set pType value).1) ∧
      ((ProxyType.Set pType value).2 = none → ProxyType.valid (ProxyType.Set pType value).1) ∧
      (ProxyType.valid pType → ProxyType.valid (setAll pType values)) := by
  refine ⟨valid_Set_of_valid pType value, ?_, ?_⟩
  · intro hnil
    by_cases h1 : value = "noopProxy"
    · subst h1; exact Or.inl rfl
    · by_cases h2 : value = "ccProxy"
      · subst h2; exact Or.inr rfl
      · rw [Set_default pType value h1 h2] at hnil; simp at hnil
  · intro hv
    induction values generalizing pType with
    | nil => exact hv
    | cons v rest ih =>
      exact ih (ProxyType.Set pType v).1 (valid_Set_of_valid pType v hv)

/-- C16: format-then-parse is a partial inverse. For every `ProxyType` value
and every receiver, `Set` on the result of `String()` succeeds if and only if
the value is `NoopProxyType` or `CCProxyType`, and then the receiver ends equal
to the value; for every other value `String()` is the empty string, which `Set`
rejects; so a non-empty result of `String()` is never refused by `Set`, and two
distinct recognized kinds format to distinct strings. -/
theorem String_then_Set_partial_inverse (pType receiver other : ProxyType) :
    ((ProxyType.Set receiver (ProxyType.String pType)).2 = none ↔ ProxyType.valid pType) ∧
      ((ProxyType.Set receiver (ProxyType.String pType)).2 = none →
        (ProxyType.Set receiver (ProxyType.String pType)).1 = pType) ∧
      (¬ ProxyType.valid pType →
        ProxyType.String pType = "" ∧ (ProxyType.Set receiver "").2 ≠ none) ∧
      (ProxyType.String pType ≠ "" →
        (ProxyType.Set receiver (ProxyType.String pType)).2 = none) ∧
      (ProxyType.valid pType → ProxyType.valid other → pType ≠ other →
        ProxyType.String pType ≠ ProxyType.String other) ∧
      ProxyType.String NoopProxyType ≠ ProxyType.String CCProxyType := by
  have hempty : (ProxyType.Set receiver "").2 ≠ none := by
    simp [ProxyType.Set, Errorf]
  have hvalid : ProxyType.valid pType →
      ProxyType.Set receiver (ProxyType.String pType) = (pType, none) := by
    intro hv
    rw [String_of_valid pType hv]
    rcases hv with rfl | rfl
    · rfl
    · rfl
  refine ⟨⟨?_, ?_⟩, ?_, ?_, ?_, ?_, by decide⟩
  · intro hnil
    by_contra hv
    rw [String_of_not_valid pType hv] at hnil
    exact hempty hnil
  · intro hv; rw [hvalid hv]
  · intro hnil
    by_cases hv : ProxyType.valid pType
    · rw [hvalid hv]
    · rw [String_of_not_valid pType hv] at hnil
      exact absurd hnil hempty
  · intro hv
    exact ⟨String_of_not_valid pType hv, hempty⟩
  · intro hne
    by_cases hv : ProxyType.valid pType
    · rw [hvalid hv]
    · exact absurd (String_of_not_valid pType hv) hne
  · intro hv ho hne
    rw [String_of_valid pType hv, String_of_valid other ho]
    exact hne

/-! ## Sessions: `sendCmd` and the stream identifiers -/

/-- A call other than `register` and `connect` leaves a proxy without sessions
without sessions. -/
theorem sessions_nil_of_step (st : ProxyState) (c : Call)
    (hc : c.opens = false) (h : st.sessions = []) : (c.step st).sessions = [] := by
  cases c with
  | register env pod => simp [Call.opens] at hc
  | connect env pod => simp [Call.opens] at hc
  | unregister pod =>
    have hs : st.hasSession pod.id = false := by simp [ProxyState.hasSession, h]
    simp only [Call.step, unregister, hs, Bool.false_eq_true, if_false]
    exact h
  | disconnect => simp [Call.step, disconnect, h]
  | sendCmd env cmd =>
    have hs : st.sessions.any (fun s => s.attached) = false := by simp [h]
    simp only [Call.step, sendCmd, hs, Bool.false_eq_true, if_false]
    exact h

/-- A sequence of calls without `register` and `connect` leaves a proxy
without sessions without sessions. -/
theorem sessions_nil_of_runCalls (calls : List Call) (st : ProxyState)
    (hc : ∀ c ∈ calls, c.opens = false) (h : st.sessions = []) :
    (runCalls st calls).sessions = [] := by
  induction calls generalizing st with
  | nil => exact h
  | cons c rest ih =>
    have hrest : ∀ c2 ∈ rest, c2.opens = false :=
      fun c2 hc2 => hc c2 (List.mem_cons_of_mem c hc2)
    have hstep := sessions_nil_of_step st c (hc c (List.mem_cons_self c rest)) h
    simpa [runCalls] using ih (c.step st) hrest hstep

/-- C12: `sendCmd` on a proxy obtained from `newProxy`, before any `register`
or `connect` (after any sequence of the other calls), fails with
`NotConnected`, for every command payload and whatever the mediator would do;
the state of the proxy is unchanged. -/
theorem sendCmd_before_register_connect (pType : ProxyType) (impl : proxy)
    (himpl : (newProxy pType).1 = some impl)
    (calls : List Call) (hcalls : ∀ c ∈ calls, c.opens = false)
    (env : Transport) (cmd : String) :
    sendCmd env (runCalls (ProxyState.fresh impl) calls) cmd =
      (.error .NotConnected, runCalls (ProxyState.fresh impl) calls) := by
  have _hnew := himpl
  have h := sessions_nil_of_runCalls calls (ProxyState.fresh impl) hcalls rfl
  have hs : (runCalls (ProxyState.fresh impl) calls).sessions.any (fun s => s.attached) =
      false := by simp [h]
  simp only [sendCmd, hs, Bool.false_eq_true, if_false]

/-- Witness of C12 on both strategies: the payload `"ping"` sent to a fresh
`ccProxy` with a reachable mediator, and to a `noopProxy` after a `disconnect`,
an `unregister` and another `sendCmd`. -/
theorem sendCmd_before_register_connect_witness :
    (newProxy "ccProxy").1 = some proxy.ccProxy ∧
      (∀ c ∈ ([] : List Call), c.opens = false) ∧
      (sendCmd Transport.reachable (runCalls (ProxyState.fresh proxy.ccProxy) []) "ping").1 =
        .error .NotConnected ∧
      (newProxy "bogusProxy").1 = some proxy.noopProxy ∧
      (∀ c ∈ [Call.disconnect, Call.unregister ⟨"pod1", ["c1"]⟩,
          Call.sendCmd Transport.reachable "ls"], c.opens = false) ∧
      (sendCmd Transport.unreachable
        (runCalls (ProxyState.fresh proxy.noopProxy)
          [Call.disconnect, Call.unregister ⟨"pod1", ["c1"]⟩,
            Call.sendCmd Transport.reachable "ls"]) "ping").1 = .error .NotConnected :=
  ⟨by decide, by decide,
    congrArg Prod.fst
      (sendCmd_before_register_connect "ccProxy" proxy.ccProxy (by decide) [] (by decide)
        Transport.reachable "ping"),
    by decide, by decide,
    congrArg Prod.fst
      (sendCmd_before_register_connect "bogusProxy" proxy.noopProxy (by decide)
        [Call.disconnect, Call.unregister ⟨"pod1", ["c1"]⟩,
          Call.sendCmd Transport.reachable "ls"] (by decide)
        Transport.unreachable "ping")⟩

/-- A list of streams has three identifiers per stream. -/
theorem length_streamIDs (streams : List IOStream) :
    (streamIDs streams).length = 3 * streams.length := by
  induction streams with
  | nil => rfl
  | cons s rest ih => simp only [streamIDs, List.length_cons, ih]; omega

/-- The no-op strategy synthesizes one stream per container. -/
theorem length_noopStreams (counter : Nat) (containers : List String) :
    (noopStreams counter containers).length = containers.length := by
  induction containers generalizing counter with
  | nil => rfl
  | cons c rest ih => simp only [noopStreams, List.length_cons, ih]

/-- The identifiers the no-op strategy synthesizes are the consecutive counter
values, converted to `uint64`. -/
theorem streamIDs_noopStreams (counter : Nat) (containers : List String) :
    streamIDs (noopStreams counter containers) =
      (List.range' counter (3 * containers.length)).map uint64 := by
  induction containers generalizing counter with
  | nil => rfl
  | cons c rest ih =>
    have hlen : 3 * (c :: rest).length = 3 * rest.length + 1 + 1 + 1 := by
      simp only [List.length_cons]; omega
    rw [hlen]
    simp only [noopStreams, streamIDs, ih, List.range'_succ, List.map_cons]

/-- Fewer than `2 ^ 64` consecutive counter values stay distinct as `uint64`. -/
theorem nodup_uint64_range' (counter k : Nat) (hk : k ≤ 2 ^ 64) :
    ((List.range' counter k).map uint64).Nodup := by
  refine List.Nodup.map_on ?_ (List.nodup_range' counter k)
  intro x hx y hy hxy
  rw [List.mem_range'_1] at hx hy
  simp only [uint64] at hxy
  norm_num at hk hxy
  omega

/-- More than `2 ^ 64` consecutive counter values collide as `uint64`. -/
theorem not_nodup_uint64_range' (k : Nat) (hk : 2 ^ 64 < k) :
    ¬ ((List.range' 0 k).map uint64).Nodup := by
  intro h
  have h0 : 0 ∈ List.range' 0 k := by
    rw [List.mem_range'_1]; omega
  have h1 : 2 ^ 64 ∈ List.range' 0 k := by
    rw [List.mem_range'_1]; omega
  have hxy : uint64 0 = uint64 (2 ^ 64) := by
    simp [uint64]
  have := List.inj_on_of_nodup_map h h0 h1 hxy
  norm_num at this

/-- C11, as the model has it: stream identifiers within a registration. On
any proxy obtained from `newProxy`, in the state it has after any sequence of
calls, when `register(pod)` returns `n` streams they carry `3n` identifiers,
and: on the no-op strategy the streams are the synthesized ones and the `3n`
identifiers are pairwise distinct as long as `3n` is at most `2 ^ 64`, the
number of `uint64` values; on the external strategy the streams are exactly
those the mediator assigned in the handshake, so their identifiers are
pairwise distinct exactly when the mediator's are. -/
theorem register_streamIDs (pType : ProxyType) (impl : proxy)
    (himpl : (newProxy pType).1 = some impl)
    (before : List Call) (env : Transport) (pod : Pod) (streams : List IOStream)
    (hok : (register env (runCalls (ProxyState.fresh impl) before) pod).1 = .ok streams) :
    (streamIDs streams).length = 3 * streams.length ∧
      ((impl = proxy.noopProxy ∧ streams.length = pod.containers.length ∧
          (3 * streams.length ≤ 2 ^ 64 → (streamIDs streams).Nodup)) ∨
        (impl = proxy.ccProxy ∧ env.handshake pod = some streams)) := by
  have _hnew := himpl
  refine ⟨length_streamIDs streams, ?_⟩
  cases hs : (runCalls (ProxyState.fresh impl) before).hasSession pod.id with
  | true =>
    rw [register_of_hasSession env _ pod hs] at hok
    cases hok
  | false =>
    cases impl with
    | noopProxy =>
      have hi : (runCalls (ProxyState.fresh proxy.noopProxy) before).impl = proxy.noopProxy :=
        impl_runCalls before _
      rw [register_noop env _ pod hs hi] at hok
      injection hok with hok
      subst hok
      refine Or.inl ⟨rfl, length_noopStreams _ _, ?_⟩
      intro hsize
      rw [length_noopStreams] at hsize
      rw [streamIDs_noopStreams]
      exact nodup_uint64_range' _ _ hsize
    | ccProxy =>
      have hi : (runCalls (ProxyState.fresh proxy.ccProxy) before).impl = proxy.ccProxy :=
        impl_runCalls before _
      cases hh : env.handshake pod with
      | none =>
        rw [register_cc_none env _ pod hs hi hh] at hok
        cases hok
      | some assigned =>
        rw [register_cc_some env _ pod assigned hs hi hh] at hok
        injection hok with hok
        subst hok
        exact Or.inr ⟨rfl, rfl⟩

/-- Witness of C11 as amended, on both strategies. On a `noopProxy` that
registered a pod with one container before, the pod `pod1` with two containers
gets the identifiers 3 to 8; on a `ccProxy` with a reachable mediator the
streams returned are the two the mediator assigned. -/
theorem register_streamIDs_witness :
    ((newProxy "noopProxy").1 = some proxy.noopProxy ∧
      (register Transport.unreachable
        (runCalls (ProxyState.fresh proxy.noopProxy)
          [Call.register Transport.unreachable ⟨"pod2", ["c3"]⟩])
        ⟨"pod1", ["c1", "c2"]⟩).1 = .ok (noopStreams 3 ["c1", "c2"]) ∧
      streamIDs (noopStreams 3 ["c1", "c2"]) = [3, 4, 5, 6, 7, 8] ∧
      (streamIDs (noopStreams 3 ["c1", "c2"])).length = 3 * (noopStreams 3 ["c1", "c2"]).length ∧
      ((proxy.noopProxy = proxy.noopProxy ∧
          (noopStreams 3 ["c1", "c2"]).length = (Pod.mk "pod1" ["c1", "c2"]).containers.length ∧
          (3 * (noopStreams 3 ["c1", "c2"]).length ≤ 2 ^ 64 →
            (streamIDs (noopStreams 3 ["c1", "c2"])).Nodup)) ∨
        (proxy.noopProxy = proxy.ccProxy ∧
          Transport.unreachable.handshake ⟨"pod1", ["c1", "c2"]⟩ =
            some (noopStreams 3 ["c1", "c2"])))) ∧
      ((newProxy "ccProxy").1 = some proxy.ccProxy ∧
        (register Transport.reachable (runCalls (ProxyState.fresh proxy.ccProxy) [])
          ⟨"pod1", ["c1", "c2"]⟩).1 = .ok (noopStreams 0 ["c1", "c2"]) ∧
        (streamIDs (noopStreams 0 ["c1", "c2"])).length =
          3 * (noopStreams 0 ["c1", "c2"]).length ∧
        ((proxy.ccProxy = proxy.noopProxy ∧
            (noopStreams 0 ["c1", "c2"]).length = (Pod.mk "pod1" ["c1", "c2"]).containers.length ∧
            (3 * (noopStreams 0 ["c1", "c2"]).length ≤ 2 ^ 64 →
              (streamIDs (noopStreams 0 ["c1", "c2"])).Nodup)) ∨
          (proxy.ccProxy = proxy.ccProxy ∧
            Transport.reachable.handshake ⟨"pod1", ["c1", "c2"]⟩ =
              some (noopStreams 0 ["c1", "c2"])))) :=
  ⟨⟨by decide, rfl, by decide,
      register_streamIDs "noopProxy" proxy.noopProxy (by decide)
        [Call.register Transport.unreachable ⟨"pod2", ["c3"]⟩]
        Transport.unreachable ⟨"pod1", ["c1", "c2"]⟩ (noopStreams 3 ["c1", "c2"]) rfl⟩,
    ⟨by decide, rfl,
      register_streamIDs "ccProxy" proxy.ccProxy (by decide) []
        Transport.reachable ⟨"pod1", ["c1", "c2"]⟩ (noopStreams 0 ["c1", "c2"]) rfl⟩⟩

/-- Counterexample to C11 as stated. On a `ccProxy` whose mediator assigns the
zero stream to every container, `register` of a pod with two containers
returns two streams whose six identifiers are all 0. On a `noopProxy`,
`register` of a pod with 6148914691236517206 containers returns that many
streams, with `2 ^ 64 + 2` identifiers, which are not pairwise distinct. -/
theorem register_streamIDs_not_nodup :
    ((newProxy "ccProxy").1 = some proxy.ccProxy ∧
      (register Transport.careless (runCalls (ProxyState.fresh proxy.ccProxy) [])
        ⟨"pod1", ["c1", "c2"]⟩).1 = .ok [IOStream.zero, IOStream.zero] ∧
      streamIDs [IOStream.zero, IOStream.zero] = [0, 0, 0, 0, 0, 0] ∧
      ¬ (streamIDs [IOStream.zero, IOStream.zero]).Nodup) ∧
      ((newProxy "noopProxy").1 = some proxy.noopProxy ∧
        (register Transport.unreachable (runCalls (ProxyState.fresh proxy.noopProxy) [])
          ⟨"pod1", List.replicate 6148914691236517206 "c"⟩).1 =
            .ok (noopStreams 0 (List.replicate 6148914691236517206 "c")) ∧
        (noopStreams 0 (List.replicate 6148914691236517206 "c")).length =
          6148914691236517206 ∧
        ¬ (streamIDs (noopStreams 0 (List.replicate 6148914691236517206 "c"))).Nodup) := by
  refine ⟨⟨by decide, rfl, by decide, by decide⟩, by decide, ?_, ?_, ?_⟩
  · have hs : (runCalls (ProxyState.fresh proxy.noopProxy) []).hasSession
        (Pod.mk "pod1" (List.replicate 6148914691236517206 "c")).id = false := rfl
    rw [register_noop Transport.unreachable _ _ hs rfl]
    rfl
  · rw [length_noopStreams, List.length_replicate]
  · rw [streamIDs_noopStreams, List.length_replicate]
    exact not_nodup_uint64_range' _ (by norm_num)

end Virtcontainers
